import Mathlib

/-!
# Modbus protocol core (include/Modbus.hpp)

Shallow embedding of the classes declared in `include/Modbus.hpp`:
`ModbusObject`, `ModbusPhy`, `Modbus`, `ModbusMaster` and `ModbusSlave`.

Conventions.
* Member functions become functions on an explicit object state; a member
  function that mutates the object returns the new state.
* `u8`, `u16`, `u32` are natural numbers reduced modulo `2^8`, `2^16`, `2^32`
  at every conversion; `int` results are integers.
* `var::Data` is a list of bytes, `var::String` a string.
* A reference member (`ModbusPhy & m_phy`) is carried as the state of the
  object it refers to, together with the overriders of its dynamic type.
-/

namespace mbus

/-! ## ModbusObject -/

/-- State of a `ModbusObject`: the stored error message. -/
structure ModbusObject where
  m_error_message : String

/-- Accessor `ModbusObject::error_message()`. -/
def ModbusObject.error_message (o : ModbusObject) : String :=
  o.m_error_message

/-- Mutator `ModbusObject::set_error_message(value)`. -/
def ModbusObject.set_error_message (_o : ModbusObject) (value : String) : ModbusObject :=
  { m_error_message := value }

/-! ## ModbusPhy -/

/-- Data members of a transport object: the `ModbusObject` base, the buffer
`m_buffer`, and the members `derived` that a concrete transport class adds. -/
structure ModbusPhy (δ : Type) where
  object : ModbusObject
  m_buffer : List Nat
  derived : δ

/-- Accessor `error_message()` inherited by the transport from `ModbusObject`. -/
def ModbusPhy.error_message {δ : Type} (p : ModbusPhy δ) : String :=
  p.object.error_message

/-- Body of the base-class `ModbusPhy::initialize()`: `return 0`. -/
def ModbusPhy.initialize {δ : Type} (p : ModbusPhy δ) : Int × ModbusPhy δ :=
  (0, p)

/-- Body of the base-class `ModbusPhy::finalize()`: `return 0`. -/
def ModbusPhy.finalize {δ : Type} (p : ModbusPhy δ) : Int × ModbusPhy δ :=
  (0, p)

/-- Member `ModbusPhy::flush()`: frees the buffer. -/
def ModbusPhy.flush {δ : Type} (p : ModbusPhy δ) : ModbusPhy δ :=
  { p with m_buffer := [] }

/-- Dynamic type of a transport: the overriders of the virtual member
functions.  `initialize` and `finalize` have a base-class body, so a concrete
transport may leave them out (`none`); `send` and `receive` are pure virtual. -/
structure PhyClass (δ : Type) where
  initialize_override : Option (ModbusPhy δ → Int × ModbusPhy δ)
  finalize_override : Option (ModbusPhy δ → Int × ModbusPhy δ)
  send : ModbusPhy δ → List Nat → Int × ModbusPhy δ
  receive : ModbusPhy δ → List Nat × ModbusPhy δ

/-- Virtual call `phy.initialize()`: the overrider when there is one, the
base-class body otherwise. -/
def PhyClass.call_initialize {δ : Type} (c : PhyClass δ) (p : ModbusPhy δ) :
    Int × ModbusPhy δ :=
  match c.initialize_override with
  | some f => f p
  | none => ModbusPhy.initialize p

/-- Virtual call `phy.finalize()`. -/
def PhyClass.call_finalize {δ : Type} (c : PhyClass δ) (p : ModbusPhy δ) :
    Int × ModbusPhy δ :=
  match c.finalize_override with
  | some f => f p
  | none => ModbusPhy.finalize p

/-! ## Modbus -/

/-- Exception code `NONE`. -/
def NONE : Nat := 0
/-- Exception code `ILLEGAL_FUNCTION`. -/
def ILLEGAL_FUNCTION : Nat := 1
/-- Exception code `ILLEGAL_DATA_ADDRESS`. -/
def ILLEGAL_DATA_ADDRESS : Nat := 2
/-- Exception code `ILLEGAL_DATA_VALUE`. -/
def ILLEGAL_DATA_VALUE : Nat := 3
/-- Exception code `SLAVE_DEVICE_FAILURE`. -/
def SLAVE_DEVICE_FAILURE : Nat := 4
/-- Exception code `ACKNOWLEDGE`. -/
def ACKNOWLEDGE : Nat := 5
/-- Exception code `SLAVE_DEVICE_BUSY`. -/
def SLAVE_DEVICE_BUSY : Nat := 6
/-- Exception code `NEGATIVE_ACKNOWLEDGE`. -/
def NEGATIVE_ACKNOWLEDGE : Nat := 7
/-- Exception code `MEMORY_PARITY_ERROR`. -/
def MEMORY_PARITY_ERROR : Nat := 8

/-- The enumerators of the anonymous exception-code enumeration other than
`NONE`, in declaration order. -/
def exception_codes : List Nat :=
  [ILLEGAL_FUNCTION, ILLEGAL_DATA_ADDRESS, ILLEGAL_DATA_VALUE, SLAVE_DEVICE_FAILURE,
   ACKNOWLEDGE, SLAVE_DEVICE_BUSY, NEGATIVE_ACKNOWLEDGE, MEMORY_PARITY_ERROR]

/-- Enumeration `Modbus::function_code`. -/
inductive function_code where
  | READ_COIL_STATUS
  | READ_INPUT_STATUS
  | READ_HOLDING_REGISTERS
  | READ_INPUT_REGISTERS
  | FORCE_SINGLE_COIL
  | PRESET_SINGLE_REGISTER
  | READ_EXCEPTION_STATUS
  | DIAGNOSTICS
  | PROGRAM_484
  | POLL_484
  | FETCH_COMMUNICATION_EVENT_CONTROLLER
  | FETCH_COMMUNICATION_EVENT_LOG
  | PROGRAM_CONTROLLER
  | POLL_CONTROLLER
  | FORCE_MULTIPLE_COILS
  | PRESET_MULTIPLE_REGISTERS
  | REPORT_SLAVE_ID
  | PROGRAM_884_M84
  | RESET_COMMUNICATIONS_LINK
  | READ_GENERAL_REFERENCE
  | WRITE_GENERAL_REFERENCE
deriving DecidableEq, Repr

/-- Underlying value of each `function_code` enumerator, as written in the
enumeration. -/
def function_code.value : function_code → Nat
  | READ_COIL_STATUS => 0x01
  | READ_INPUT_STATUS => 0x02
  | READ_HOLDING_REGISTERS => 0x03
  | READ_INPUT_REGISTERS => 0x04
  | FORCE_SINGLE_COIL => 0x05
  | PRESET_SINGLE_REGISTER => 0x06
  | READ_EXCEPTION_STATUS => 0x07
  | DIAGNOSTICS => 0x08
  | PROGRAM_484 => 0x09
  | POLL_484 => 0x10
  | FETCH_COMMUNICATION_EVENT_CONTROLLER => 0x11
  | FETCH_COMMUNICATION_EVENT_LOG => 0x12
  | PROGRAM_CONTROLLER => 0x13
  | POLL_CONTROLLER => 0x14
  | FORCE_MULTIPLE_COILS => 0x15
  | PRESET_MULTIPLE_REGISTERS => 0x16
  | REPORT_SLAVE_ID => 0x17
  | PROGRAM_884_M84 => 0x18
  | RESET_COMMUNICATIONS_LINK => 0x19
  | READ_GENERAL_REFERENCE => 0x20
  | WRITE_GENERAL_REFERENCE => 0x21

/-- All enumerators of `function_code`, in declaration order. -/
def function_code.all : List function_code :=
  [.READ_COIL_STATUS, .READ_INPUT_STATUS, .READ_HOLDING_REGISTERS, .READ_INPUT_REGISTERS,
   .FORCE_SINGLE_COIL, .PRESET_SINGLE_REGISTER, .READ_EXCEPTION_STATUS, .DIAGNOSTICS,
   .PROGRAM_484, .POLL_484, .FETCH_COMMUNICATION_EVENT_CONTROLLER,
   .FETCH_COMMUNICATION_EVENT_LOG, .PROGRAM_CONTROLLER, .POLL_CONTROLLER,
   .FORCE_MULTIPLE_COILS, .PRESET_MULTIPLE_REGISTERS, .REPORT_SLAVE_ID, .PROGRAM_884_M84,
   .RESET_COMMUNICATIONS_LINK, .READ_GENERAL_REFERENCE, .WRITE_GENERAL_REFERENCE]

/-- The exception-flagged variant of a function-code byte: the byte with its
high bit `0x80` set, as an exception response carries it. -/
def exception_flagged (f : Nat) : Nat :=
  f ||| 0x80

/-- State of a `Modbus` object: the `ModbusObject` base, the transport that
`m_phy` refers to (its members and its dynamic type), the `u16` member
`m_exception_code` and the `u32` member `m_max_packet_size`. -/
structure Modbus (δ : Type) where
  object : ModbusObject
  m_phy : ModbusPhy δ
  m_phy_class : PhyClass δ
  m_exception_code : Nat
  m_max_packet_size : Nat

/-- Accessor `error_message()` inherited by `Modbus` from `ModbusObject`. -/
def Modbus.error_message {δ : Type} (m : Modbus δ) : String :=
  m.object.error_message

/-- Mutator `set_error_message(value)` inherited from `ModbusObject`. -/
def Modbus.set_error_message {δ : Type} (m : Modbus δ) (value : String) : Modbus δ :=
  { m with object := m.object.set_error_message value }

/-- Member `Modbus::set_max_packet_size(u32 value)`. -/
def Modbus.set_max_packet_size {δ : Type} (m : Modbus δ) (value : Nat) : Modbus δ :=
  { m with m_max_packet_size := value % 2 ^ 32 }

/-- Member `Modbus::max_packet_size()`. -/
def Modbus.max_packet_size {δ : Type} (m : Modbus δ) : Nat :=
  m.m_max_packet_size

/-- Member `Modbus::set_exception_code(u16 exception_code)`: stores the
argument in the 16-bit member. -/
def Modbus.set_exception_code {δ : Type} (m : Modbus δ) (exception_code : Nat) : Modbus δ :=
  { m with m_exception_code := exception_code % 2 ^ 16 }

/-- Member `Modbus::exception_code()`: returns the 16-bit member converted to
`u8`. -/
def Modbus.exception_code {δ : Type} (m : Modbus δ) : Nat :=
  m.m_exception_code % 2 ^ 8

/-! ## ModbusMaster -/

/-- Result of `var::String().format("phy initialize; %s", reason)`: the
literal text of the format string followed by the argument substituted for
`%s`. -/
def phy_initialize_message (reason : String) : String :=
  "phy initialize; " ++ reason

/-- State of a `ModbusMaster`: the `Modbus` base and the response timeout
`m_timeout` in microseconds. -/
structure ModbusMaster (δ : Type) where
  modbus : Modbus δ
  m_timeout : Nat

/-- Accessor `error_message()` of a master. -/
def ModbusMaster.error_message {δ : Type} (m : ModbusMaster δ) : String :=
  m.modbus.error_message

/-- Member `ModbusMaster::initialize()`: calls the transport, records a
message when the transport reports a negative result, returns the
transport result. -/
def ModbusMaster.initialize {δ : Type} (m : ModbusMaster δ) : Int × ModbusMaster δ :=
  let result := m.modbus.m_phy_class.call_initialize m.modbus.m_phy
  let m1 : ModbusMaster δ := { m with modbus := { m.modbus with m_phy := result.2 } }
  if result.1 < 0 then
    (result.1,
      { m1 with modbus :=
          m1.modbus.set_error_message (phy_initialize_message m1.modbus.m_phy.error_message) })
  else
    (result.1, m1)

/-- Member `ModbusMaster::finalize()`: calls the transport and drops its
result. -/
def ModbusMaster.finalize {δ : Type} (m : ModbusMaster δ) : ModbusMaster δ :=
  { m with modbus :=
      { m.modbus with m_phy := (m.modbus.m_phy_class.call_finalize m.modbus.m_phy).2 } }

/-! ## ModbusSlave -/

/-- State of a `ModbusSlave`: the `Modbus` base and the private members in
declaration order.  The private `m_max_packet_size` of `ModbusSlave` is a
member of its own, distinct from the one of `Modbus`.  `θ` is the state of
the `sys::Thread` member; `m_interval` is in microseconds. -/
structure ModbusSlave (δ θ : Type) where
  modbus : Modbus δ
  m_max_packet_size : Nat
  m_is_running : Bool
  m_slave_address : Nat
  m_thread : θ
  m_interval : Nat

/-- Contents of the storage in which a `ModbusSlave` is constructed, for the
members of fundamental type that have no default member initializer: a
constructor that does not mention such a member leaves it as the storage
holds it. -/
structure SlaveStorage where
  m_max_packet_size : Nat
  m_is_running : Bool
  m_slave_address : Nat

/-- Member `ModbusSlave::set_polling_interval(interval)`. -/
def ModbusSlave.set_polling_interval {δ θ : Type} (s : ModbusSlave δ θ) (interval : Nat) :
    ModbusSlave δ θ :=
  { s with m_interval := interval }

/-- Constructor `ModbusSlave(ModbusPhy & phy, int stack_size)`.  The
mem-initializer list is `Modbus(phy), m_thread(stack_size)` and the body is
`set_polling_interval(chrono::MicroTime(10000))`.  The out-of-line
constructor `Modbus(phy)` and the constructor of `sys::Thread` are the
parameters `modbus_ctor` and `thread_ctor`; `m_interval` is
default-constructed (`interval0`) before the body assigns it.  The members
`m_max_packet_size`, `m_is_running` and `m_slave_address` are mentioned
neither in the mem-initializer list nor in the body. -/
def ModbusSlave.construct {δ θ : Type} (storage : SlaveStorage)
    (modbus_ctor : PhyClass δ → ModbusPhy δ → Modbus δ) (thread_ctor : Int → θ)
    (interval0 : Nat) (phy_class : PhyClass δ) (phy : ModbusPhy δ) (stack_size : Int) :
    ModbusSlave δ θ :=
  let s : ModbusSlave δ θ :=
    { modbus := modbus_ctor phy_class phy
      m_max_packet_size := storage.m_max_packet_size
      m_is_running := storage.m_is_running
      m_slave_address := storage.m_slave_address
      m_thread := thread_ctor stack_size
      m_interval := interval0 }
  s.set_polling_interval 10000

/-- Member `ModbusSlave::set_slave_address(u8 slave_address)`. -/
def ModbusSlave.set_slave_address {δ θ : Type} (s : ModbusSlave δ θ) (slave_address : Nat) :
    ModbusSlave δ θ :=
  { s with m_slave_address := slave_address % 2 ^ 8 }

/-- Accessor `exception_code()` of a slave. -/
def ModbusSlave.exception_code {δ θ : Type} (s : ModbusSlave δ θ) : Nat :=
  s.modbus.exception_code

/-- Accessor `max_packet_size()` of a slave (the member function of `Modbus`,
reading the member of `Modbus`). -/
def ModbusSlave.max_packet_size {δ θ : Type} (s : ModbusSlave δ θ) : Nat :=
  s.modbus.max_packet_size

/-- Base-class body of the virtual `ModbusSlave::preset_single_register`:
sets the exception code to `ILLEGAL_FUNCTION` and returns `-1`. -/
def ModbusSlave.preset_single_register {δ θ : Type} (s : ModbusSlave δ θ)
    (_register_address _value : Nat) : Int × ModbusSlave δ θ :=
  (-1, { s with modbus := s.modbus.set_exception_code ILLEGAL_FUNCTION })

/-- Base-class body of the virtual `ModbusSlave::read_holding_registers`:
sets the exception code to `ILLEGAL_FUNCTION` and executes `return -1`; the
first component is the integer from which the returned `var::Data` is
converted. -/
def ModbusSlave.read_holding_registers {δ θ : Type} (s : ModbusSlave δ θ)
    (_register_address _size : Nat) : Int × ModbusSlave δ θ :=
  (-1, { s with modbus := s.modbus.set_exception_code ILLEGAL_FUNCTION })

/-- How the iteration of the listen loop that is in progress when the running
flag is cleared ends: without a handler call (the thread is not running, the
receive times out, or the frame is discarded), or with the call of one of the
two handlers. -/
inductive PendingDispatch where
  | no_dispatch
  | preset_single_register (register_address value : Nat)
  | read_holding_registers (register_address size : Nat)
deriving DecidableEq, Repr

/-- Modelled from the spec: the body of `ModbusSlave::listen` is missing;
sections 4.4 and 5 give what the listen thread does on the object once the
running flag is cleared: the flag is checked once per loop iteration, so the
thread completes the iteration it is in, dispatching to a handler when a
query for this slave has arrived, and then observes the flag and exits.  The
handlers are the base-class bodies; `traffic` is the effect on the transport
of the receive and send calls of that iteration. -/
def ModbusSlave.listen_until_stopped {δ θ : Type} (traffic : ModbusPhy δ → ModbusPhy δ)
    (pending : PendingDispatch) (s : ModbusSlave δ θ) : ModbusSlave δ θ :=
  let s1 : ModbusSlave δ θ :=
    match pending with
    | .no_dispatch => s
    | .preset_single_register register_address value =>
      (s.preset_single_register register_address value).2
    | .read_holding_registers register_address size =>
      (s.read_holding_registers register_address size).2
  { s1 with modbus := { s1.modbus with m_phy := traffic s1.modbus.m_phy } }

/-- Member `ModbusSlave::finalize()`: clears the running flag, then calls
`m_thread.wait()`.  The call blocks until the listen thread, which runs
`listen()` on this same object, has exited, so what that thread still does on
the object (`listen_until_stopped`) happens inside the call; `wait` is the
effect of the join on the thread member. -/
def ModbusSlave.finalize {δ θ : Type} (traffic : ModbusPhy δ → ModbusPhy δ)
    (pending : PendingDispatch) (wait : θ → θ) (s : ModbusSlave δ θ) : ModbusSlave δ θ :=
  let s1 : ModbusSlave δ θ := { s with m_is_running := false }
  let s2 : ModbusSlave δ θ := s1.listen_until_stopped traffic pending
  { s2 with m_thread := wait s2.m_thread }

/-! ## Checksum and query encoding

`ModbusPhy::calculate_crc`, `Modbus::send_query` and
`Modbus::send_preset_single_register_query` are declared in the header and
defined out of line. -/

/-- One bit step of the CRC: shift right, and fold in the reflected
polynomial `0xA001` when the bit shifted out is set. -/
def crc_bit_step (crc : Nat) : Nat :=
  if crc &&& 1 = 1 then (crc >>> 1) ^^^ 0xA001 else crc >>> 1

/-- One byte step of the CRC: the byte is folded into the low half, then
eight bit steps follow. -/
def crc_byte_step (crc byte : Nat) : Nat :=
  crc_bit_step^[8] (crc ^^^ byte)

/-- Modelled from the spec: the body of `ModbusPhy::calculate_crc` is missing;
section 4.1 describes it as the standard Modbus polynomial CRC over the byte
sequence, a pure total function: register preset to `0xFFFF`, each byte
folded in and shifted out through the polynomial. -/
def calculate_crc (data : List Nat) : Nat :=
  data.foldl crc_byte_step 0xFFFF

/-- The standard Modbus CRC16 lookup table (256 words). -/
def crc16_table : List Nat :=
  [0x0000, 0xC0C1, 0xC181, 0x0140, 0xC301, 0x03C0, 0x0280, 0xC241,
   0xC601, 0x06C0, 0x0780, 0xC741, 0x0500, 0xC5C1, 0xC481, 0x0440,
   0xCC01, 0x0CC0, 0x0D80, 0xCD41, 0x0F00, 0xCFC1, 0xCE81, 0x0E40,
   0x0A00, 0xCAC1, 0xCB81, 0x0B40, 0xC901, 0x09C0, 0x0880, 0xC841,
   0xD801, 0x18C0, 0x1980, 0xD941, 0x1B00, 0xDBC1, 0xDA81, 0x1A40,
   0x1E00, 0xDEC1, 0xDF81, 0x1F40, 0xDD01, 0x1DC0, 0x1C80, 0xDC41,
   0x1400, 0xD4C1, 0xD581, 0x1540, 0xD701, 0x17C0, 0x1680, 0xD641,
   0xD201, 0x12C0, 0x1380, 0xD341, 0x1100, 0xD1C1, 0xD081, 0x1040,
   0xF001, 0x30C0, 0x3180, 0xF141, 0x3300, 0xF3C1, 0xF281, 0x3240,
   0x3600, 0xF6C1, 0xF781, 0x3740, 0xF501, 0x35C0, 0x3480, 0xF441,
   0x3C00, 0xFCC1, 0xFD81, 0x3D40, 0xFF01, 0x3FC0, 0x3E80, 0xFE41,
   0xFA01, 0x3AC0, 0x3B80, 0xFB41, 0x3900, 0xF9C1, 0xF881, 0x3840,
   0x2800, 0xE8C1, 0xE981, 0x2940, 0xEB01, 0x2BC0, 0x2A80, 0xEA41,
   0xEE01, 0x2EC0, 0x2F80, 0xEF41, 0x2D00, 0xEDC1, 0xEC81, 0x2C40,
   0xE401, 0x24C0, 0x2580, 0xE541, 0x2700, 0xE7C1, 0xE681, 0x2640,
   0x2200, 0xE2C1, 0xE381, 0x2340, 0xE101, 0x21C0, 0x2080, 0xE041,
   0xA001, 0x60C0, 0x6180, 0xA141, 0x6300, 0xA3C1, 0xA281, 0x6240,
   0x6600, 0xA6C1, 0xA781, 0x6740, 0xA501, 0x65C0, 0x6480, 0xA441,
   0x6C00, 0xACC1, 0xAD81, 0x6D40, 0xAF01, 0x6FC0, 0x6E80, 0xAE41,
   0xAA01, 0x6AC0, 0x6B80, 0xAB41, 0x6900, 0xA9C1, 0xA881, 0x6840,
   0x7800, 0xB8C1, 0xB981, 0x7940, 0xBB01, 0x7BC0, 0x7A80, 0xBA41,
   0xBE01, 0x7EC0, 0x7F80, 0xBF41, 0x7D00, 0xBDC1, 0xBC81, 0x7C40,
   0xB401, 0x74C0, 0x7580, 0xB541, 0x7700, 0xB7C1, 0xB681, 0x7640,
   0x7200, 0xB2C1, 0xB381, 0x7340, 0xB101, 0x71C0, 0x7080, 0xB041,
   0x5000, 0x90C1, 0x9181, 0x5140, 0x9301, 0x53C0, 0x5280, 0x9241,
   0x9601, 0x56C0, 0x5780, 0x9741, 0x5500, 0x95C1, 0x9481, 0x5440,
   0x9C01, 0x5CC0, 0x5D80, 0x9D41, 0x5F00, 0x9FC1, 0x9E81, 0x5E40,
   0x5A00, 0x9AC1, 0x9B81, 0x5B40, 0x9901, 0x59C0, 0x5880, 0x9841,
   0x8801, 0x48C0, 0x4980, 0x8941, 0x4B00, 0x8BC1, 0x8A81, 0x4A40,
   0x4E00, 0x8EC1, 0x8F81, 0x4F40, 0x8D01, 0x4DC0, 0x4C80, 0x8C41,
   0x4400, 0x84C1, 0x8581, 0x4540, 0x8701, 0x47C0, 0x4680, 0x8641,
   0x8201, 0x42C0, 0x4380, 0x8341, 0x4100, 0x81C1, 0x8081, 0x4040]

/-- The standard table-driven Modbus CRC16: register preset to `0xFFFF`, one
table lookup per byte. -/
def crc16_standard (data : List Nat) : Nat :=
  data.foldl (fun crc byte => (crc >>> 8) ^^^ crc16_table.getD ((crc ^^^ byte) &&& 0xFF) 0) 0xFFFF

/-- Failure kinds of the frame codec (section 4.2 of the spec). -/
inductive FrameError where
  | PayloadTooLarge
  | ChecksumMismatch
  | FrameTooShort
deriving DecidableEq, Repr

/-- Modelled from the spec: the frame construction inside `Modbus::send_query`
is missing; section 4.2 (`encode_query`) and section 6 give it: address byte,
function code byte, payload, then the checksum computed over every preceding
byte, low byte first; it fails with `PayloadTooLarge` if the resulting frame
would exceed `max_packet_size`. -/
def encode_query (max_packet_size address function_code : Nat) (payload : List Nat) :
    Except FrameError (List Nat) :=
  let body := address :: function_code :: payload
  let crc := calculate_crc body
  let frame := body ++ [crc &&& 0xFF, crc >>> 8]
  if frame.length > max_packet_size then .error .PayloadTooLarge else .ok frame

/-- Modelled from the spec: the body of `Modbus::send_query` is missing;
sections 2 and 4.3 give it: the query is encoded and the frame is sent through
the transport, whose result is returned; an encoding failure is surfaced and
nothing is sent. -/
def Modbus.send_query {δ : Type} (m : Modbus δ) (slave_address : Nat) (fc : function_code)
    (data : List Nat) : Except FrameError (Int × Modbus δ) :=
  match encode_query m.max_packet_size (slave_address % 2 ^ 8) fc.value data with
  | .error e => .error e
  | .ok frame =>
    let r := m.m_phy_class.send m.m_phy frame
    .ok (r.1, { m with m_phy := r.2 })

/-- Modelled from the spec: the body of
`Modbus::send_preset_single_register_query` is missing; section 8 gives the
payload of a preset-single-register query: the register address and the value,
each as two bytes, high byte first. -/
def Modbus.send_preset_single_register_query {δ : Type} (m : Modbus δ)
    (slave_address register_address value : Nat) : Except FrameError (Int × Modbus δ) :=
  let ra := register_address % 2 ^ 16
  let v := value % 2 ^ 16
  m.send_query slave_address .PRESET_SINGLE_REGISTER [ra >>> 8, ra &&& 0xFF, v >>> 8, v &&& 0xFF]

/-! ## Sample objects -/

/-- A transport object with no extra members, an empty buffer and an empty
error message. -/
def idle_phy : ModbusPhy Unit :=
  { object := { m_error_message := "" }, m_buffer := [], derived := () }

/-- A transport class that overrides neither `initialize` nor `finalize`;
`send` reports the number of bytes and keeps them in the buffer, `receive`
returns the buffer. -/
def plain_class : PhyClass Unit :=
  { initialize_override := none
    finalize_override := none
    send := fun p data => (data.length, { p with m_buffer := data })
    receive := fun p => (p.m_buffer, p) }

/-- A transport class whose `initialize` fails with `-1` after recording the
reason `port busy` in its error message. -/
def failing_class : PhyClass Unit :=
  { plain_class with
    initialize_override :=
      some (fun p => (-1, { p with object := p.object.set_error_message "port busy" })) }

/-- A master over `plain_class` with a 256-byte packet bound. -/
def plain_master : ModbusMaster Unit :=
  { modbus :=
      { object := { m_error_message := "" }, m_phy := idle_phy, m_phy_class := plain_class,
        m_exception_code := 0, m_max_packet_size := 256 }
    m_timeout := 1000000 }

/-- A master over `failing_class`. -/
def failing_master : ModbusMaster Unit :=
  { plain_master with modbus := { plain_master.modbus with m_phy_class := failing_class } }

/-- The `Modbus` object of `plain_master` after `set_max_packet_size(7)`. -/
def small_packet_modbus : Modbus Unit :=
  plain_master.modbus.set_max_packet_size 7

end mbus

namespace mbus

/-! ## Exception codes and function codes -/

/-- C6: the exception-code enumeration has exactly the values
ILLEGAL_FUNCTION=1 .. MEMORY_PARITY_ERROR=8; they are pairwise distinct, lie
in 1..8, and none equals NONE, which is 0. -/
theorem exception_code_values :
    ILLEGAL_FUNCTION = 1 ∧ ILLEGAL_DATA_ADDRESS = 2 ∧ ILLEGAL_DATA_VALUE = 3 ∧
    SLAVE_DEVICE_FAILURE = 4 ∧ ACKNOWLEDGE = 5 ∧ SLAVE_DEVICE_BUSY = 6 ∧
    NEGATIVE_ACKNOWLEDGE = 7 ∧ MEMORY_PARITY_ERROR = 8 ∧ NONE = 0 ∧
    exception_codes = [1, 2, 3, 4, 5, 6, 7, 8] ∧
    exception_codes.Nodup ∧
    exception_codes.all (fun c => decide (1 ≤ c ∧ c ≤ 8 ∧ c ≠ NONE)) = true := by
  decide

/-- C7: the function_code enumeration assigns the values the spec lists, and
its 21 enumerators have pairwise distinct values. -/
theorem function_code_values :
    function_code.READ_COIL_STATUS.value = 0x01 ∧
    function_code.READ_INPUT_STATUS.value = 0x02 ∧
    function_code.READ_HOLDING_REGISTERS.value = 0x03 ∧
    function_code.READ_INPUT_REGISTERS.value = 0x04 ∧
    function_code.FORCE_SINGLE_COIL.value = 0x05 ∧
    function_code.PRESET_SINGLE_REGISTER.value = 0x06 ∧
    function_code.READ_EXCEPTION_STATUS.value = 0x07 ∧
    function_code.DIAGNOSTICS.value = 0x08 ∧
    function_code.FORCE_MULTIPLE_COILS.value = 0x15 ∧
    function_code.PRESET_MULTIPLE_REGISTERS.value = 0x16 ∧
    function_code.REPORT_SLAVE_ID.value = 0x17 ∧
    function_code.all.length = 21 ∧
    (∀ f : function_code, f ∈ function_code.all) ∧
    (function_code.all.map function_code.value).Nodup := by
  refine ⟨rfl, rfl, rfl, rfl, rfl, rfl, rfl, rfl, rfl, rfl, rfl, rfl, ?_, by decide⟩
  intro f
  cases f <;> decide

/-- C10: every function_code value has its high bit clear, so its
exception-flagged variant is not a function_code value, masks back to the
original with 0x7F, and determines the function code it came from. -/
theorem exception_flag_distinguishes (f : function_code) :
    f.value < 0x80 ∧
    (∀ g : function_code, exception_flagged f.value ≠ g.value) ∧
    exception_flagged f.value &&& 0x7F = f.value ∧
    (∀ g : function_code,
      exception_flagged f.value = exception_flagged g.value → f = g) := by
  refine ⟨?_, ?_, ?_, ?_⟩
  · cases f <;> decide
  · intro g
    cases f <;> cases g <;> decide
  · cases f <;> decide
  · intro g
    cases f <;> cases g <;> decide

/-- Witness for C10 at READ_HOLDING_REGISTERS: the flagged byte 0x83 masks
back to 0x03 and identifies the function code. -/
theorem exception_flag_distinguishes_witness :
    exception_flagged function_code.READ_HOLDING_REGISTERS.value = 0x83 ∧
    function_code.READ_HOLDING_REGISTERS = function_code.READ_HOLDING_REGISTERS :=
  ⟨by decide,
   (exception_flag_distinguishes .READ_HOLDING_REGISTERS).2.2.2 .READ_HOLDING_REGISTERS rfl⟩

/-! ## Exception code storage -/

/-- C9: reading back the exception code after set_exception_code(v) gives
v mod 256; so every v up to 255 (NONE and the eight defined codes among them)
reads back unchanged, and values that differ by a multiple of 256, such as
0x0100 and NONE, read back as the same code. -/
theorem exception_code_narrowing {δ : Type} (m : Modbus δ) :
    (∀ v : Nat, (m.set_exception_code v).exception_code = v % 256) ∧
    (∀ v : Nat, v ≤ 255 → (m.set_exception_code v).exception_code = v) ∧
    (m.set_exception_code NONE).exception_code = NONE ∧
    (∀ c ∈ exception_codes, (m.set_exception_code c).exception_code = c) ∧
    (∀ v k : Nat, (m.set_exception_code (v + 256 * k)).exception_code =
      (m.set_exception_code v).exception_code) ∧
    (m.set_exception_code 0x0100).exception_code =
      (m.set_exception_code NONE).exception_code := by
  have h : ∀ v : Nat, (m.set_exception_code v).exception_code = v % 256 := by
    intro v
    show v % 2 ^ 16 % 2 ^ 8 = v % 256
    omega
  refine ⟨h, ?_, ?_, ?_, ?_, ?_⟩
  · intro v hv
    rw [h]
    omega
  · rw [h]
    rfl
  · intro c hc
    rw [h]
    simp only [exception_codes, ILLEGAL_FUNCTION, ILLEGAL_DATA_ADDRESS, ILLEGAL_DATA_VALUE,
      SLAVE_DEVICE_FAILURE, ACKNOWLEDGE, SLAVE_DEVICE_BUSY, NEGATIVE_ACKNOWLEDGE,
      MEMORY_PARITY_ERROR, List.mem_cons, List.mem_singleton, List.not_mem_nil, or_false] at hc
    omega
  · intro v k
    rw [h, h]
    omega
  · rw [h, h]
    rfl

/-- Witness for C9: MEMORY_PARITY_ERROR (8) is at most 255, is one of the
defined codes, and reads back as 8. -/
theorem exception_code_narrowing_witness :
    (8 ≤ 255 ∧ (plain_master.modbus.set_exception_code 8).exception_code = 8) ∧
    (MEMORY_PARITY_ERROR ∈ exception_codes ∧
      (plain_master.modbus.set_exception_code MEMORY_PARITY_ERROR).exception_code =
        MEMORY_PARITY_ERROR) :=
  ⟨⟨by decide, (exception_code_narrowing plain_master.modbus).2.1 8 (by decide)⟩,
   ⟨by decide,
    (exception_code_narrowing plain_master.modbus).2.2.2.1 MEMORY_PARITY_ERROR (by decide)⟩⟩

end mbus

namespace mbus

/-! ## ModbusSlave -/

/-- C1: whatever the prior state and the two arguments, the base-class bodies
of preset_single_register and read_holding_registers leave exception_code()
equal to ILLEGAL_FUNCTION, which is 1, and preset_single_register returns
-1. -/
theorem default_handlers_illegal_function {δ θ : Type} (s : ModbusSlave δ θ) (a b : Nat) :
    (s.preset_single_register a b).2.exception_code = ILLEGAL_FUNCTION ∧
    (s.read_holding_registers a b).2.exception_code = ILLEGAL_FUNCTION ∧
    ILLEGAL_FUNCTION = 1 ∧
    (s.preset_single_register a b).1 = -1 :=
  ⟨rfl, rfl, rfl, rfl⟩

/-- The constructor passes the running flag through from the storage it
constructs in: no initializer and no statement of the body assigns it. -/
theorem construct_keeps_storage_flag {δ θ : Type} (storage : SlaveStorage)
    (modbus_ctor : PhyClass δ → ModbusPhy δ → Modbus δ) (thread_ctor : Int → θ)
    (interval0 : Nat) (phy_class : PhyClass δ) (phy : ModbusPhy δ) (stack_size : Int) :
    (ModbusSlave.construct storage modbus_ctor thread_ctor interval0 phy_class phy
      stack_size).m_is_running = storage.m_is_running :=
  rfl

/-- C4: the constructor does not establish running = false.  Constructed in
storage whose flag byte is set, a ModbusSlave has m_is_running equal to true,
for every transport and every stack size. -/
theorem construct_running_flag_set {δ θ : Type}
    (modbus_ctor : PhyClass δ → ModbusPhy δ → Modbus δ) (thread_ctor : Int → θ)
    (interval0 : Nat) (phy_class : PhyClass δ) (phy : ModbusPhy δ) (stack_size : Int) :
    (ModbusSlave.construct
      { m_max_packet_size := 0, m_is_running := true, m_slave_address := 0 }
      modbus_ctor thread_ctor interval0 phy_class phy stack_size).m_is_running = true :=
  rfl

/-! ## ModbusMaster -/

/-- C2: ModbusMaster::initialize() returns the transport result r; when r is
negative the master message becomes "phy initialize; " followed by the
message the transport holds after its initialize, and when r is not negative
the master message is unchanged.  The transport is left as its initialize
left it. -/
theorem master_initialize_result {δ : Type} (m : ModbusMaster δ) :
    ( ModbusMaster.initialize m).1 = ( m.modbus.m_phy_class.call_initialize m.modbus.m_phy).1 ∧
    ( ModbusMaster.initialize m).2.modbus.m_phy =
      ( m.modbus.m_phy_class.call_initialize m.modbus.m_phy).2 ∧
    (( m.modbus.m_phy_class.call_initialize m.modbus.m_phy).1 < 0 →
      ( ModbusMaster.initialize m).2.error_message =
        "phy initialize; " ++
          ( m.modbus.m_phy_class.call_initialize m.modbus.m_phy).2.error_message) ∧
    (0 ≤ ( m.modbus.m_phy_class.call_initialize m.modbus.m_phy).1 →
      ( ModbusMaster.initialize m).2.error_message = m.error_message) := by
  by_cases h : ( m.modbus.m_phy_class.call_initialize m.modbus.m_phy).1 < 0
  · have e : ModbusMaster.initialize m =
        (( m.modbus.m_phy_class.call_initialize m.modbus.m_phy).1,
          { modbus :=
              Modbus.set_error_message
                { m.modbus with
                  m_phy := ( m.modbus.m_phy_class.call_initialize m.modbus.m_phy).2 }
                (phy_initialize_message
                  ( m.modbus.m_phy_class.call_initialize m.modbus.m_phy).2.error_message)
            m_timeout := m.m_timeout }) := by
      unfold ModbusMaster.initialize
      exact if_pos h
    rw [e]
    refine ⟨rfl, rfl, fun _ => rfl, fun h0 => ?_⟩
    omega
  · have e : ModbusMaster.initialize m =
        (( m.modbus.m_phy_class.call_initialize m.modbus.m_phy).1,
          { modbus :=
              { m.modbus with
                m_phy := ( m.modbus.m_phy_class.call_initialize m.modbus.m_phy).2 }
            m_timeout := m.m_timeout }) := by
      unfold ModbusMaster.initialize
      exact if_neg h
    rw [e]
    exact ⟨rfl, rfl, fun h0 => absurd h0 h, fun _ => rfl⟩

/-- Witness for C2: over a transport that fails with -1 and the reason
"port busy", initialize returns -1 and the master message carries the
reason; over a transport that succeeds the message stays empty. -/
theorem master_initialize_result_witness :
    (( ModbusMaster.initialize failing_master).1 = -1 ∧
      ( ModbusMaster.initialize failing_master).2.error_message =
        "phy initialize; port busy") ∧
    (( ModbusMaster.initialize plain_master).1 = 0 ∧
      ( ModbusMaster.initialize plain_master).2.error_message = "") :=
  ⟨⟨(master_initialize_result failing_master).1,
    (master_initialize_result failing_master).2.2.1 (by decide)⟩,
   ⟨(master_initialize_result plain_master).1,
    (master_initialize_result plain_master).2.2.2 (by decide)⟩⟩

/-- C8: the base-class initialize and finalize of a transport return 0, so
over a transport class that overrides neither, the virtual calls return 0,
and ModbusMaster::initialize() returns 0 and leaves the master message
unchanged. -/
theorem master_initialize_default_phy {δ : Type} (m : ModbusMaster δ)
    (hi : m.modbus.m_phy_class.initialize_override = none)
    (hf : m.modbus.m_phy_class.finalize_override = none) :
    ( ModbusPhy.initialize m.modbus.m_phy).1 = 0 ∧
    ( ModbusPhy.finalize m.modbus.m_phy).1 = 0 ∧
    ( m.modbus.m_phy_class.call_initialize m.modbus.m_phy).1 = 0 ∧
    ( m.modbus.m_phy_class.call_finalize m.modbus.m_phy).1 = 0 ∧
    ( ModbusMaster.initialize m).1 = 0 ∧
    ( ModbusMaster.initialize m).2.error_message = m.error_message := by
  have hci : m.modbus.m_phy_class.call_initialize m.modbus.m_phy = (0, m.modbus.m_phy) := by
    unfold PhyClass.call_initialize
    rw [hi]
    rfl
  have hcf : m.modbus.m_phy_class.call_finalize m.modbus.m_phy = (0, m.modbus.m_phy) := by
    unfold PhyClass.call_finalize
    rw [hf]
    rfl
  refine ⟨rfl, rfl, by rw [hci], by rw [hcf], ?_, ?_⟩
  · unfold ModbusMaster.initialize
    rw [hci]
    rfl
  · unfold ModbusMaster.initialize
    rw [hci]
    rfl

/-- Witness for C8: `plain_master` runs over a transport class that overrides
neither function. -/
theorem master_initialize_default_phy_witness :
    plain_master.modbus.m_phy_class.initialize_override = none ∧
    plain_master.modbus.m_phy_class.finalize_override = none ∧
    ( ModbusMaster.initialize plain_master).1 = 0 ∧
    ( ModbusMaster.initialize plain_master).2.error_message = plain_master.error_message :=
  ⟨rfl, rfl,
   (master_initialize_default_phy plain_master rfl rfl).2.2.2.2.1,
   (master_initialize_default_phy plain_master rfl rfl).2.2.2.2.2⟩

end mbus

namespace mbus

/-! ## Query encoding -/

/-- The polynomial CRC of the 6-byte body of the example query. -/
theorem calculate_crc_example :
    calculate_crc [0x11, 0x06, 0x00, 0x01, 0x00, 0xFF] = 0xDA9A := by
  set_option maxRecDepth 4000 in decide

/-- The table-driven CRC of the 6-byte body of the example query. -/
theorem crc16_standard_example :
    crc16_standard [0x11, 0x06, 0x00, 0x01, 0x00, 0xFF] = 0xDA9A := by
  set_option maxRecDepth 4000 in decide

/-- Both CRC definitions give the check value `0x4B37` of CRC-16/MODBUS on the
ASCII digits `123456789`. -/
theorem crc_check_value :
    calculate_crc [0x31, 0x32, 0x33, 0x34, 0x35, 0x36, 0x37, 0x38, 0x39] = 0x4B37 ∧
    crc16_standard [0x31, 0x32, 0x33, 0x34, 0x35, 0x36, 0x37, 0x38, 0x39] = 0x4B37 := by
  set_option maxRecDepth 4000 in decide

/-! ### The polynomial CRC and the table-driven CRC agree -/

/-- The bit step as an exclusive-or of the shifted register with the polynomial
or with zero. -/
theorem crc_bit_step_eq (x : Nat) :
    crc_bit_step x = (x >>> 1) ^^^ (if x % 2 = 1 then 0xA001 else 0) := by
  unfold crc_bit_step
  rw [Nat.and_one_is_mod]
  split <;> simp

/-- Right shift distributes over exclusive-or. -/
theorem shiftRight_xor (u v n : Nat) : (u ^^^ v) >>> n = (u >>> n) ^^^ (v >>> n) := by
  apply Nat.eq_of_testBit_eq
  intro i
  simp

/-- Parity of an exclusive-or. -/
theorem xor_mod_two (u v : Nat) : (u ^^^ v) % 2 = (u % 2 + v % 2) % 2 := by
  have h := Nat.testBit_xor u v 0
  simp only [Nat.testBit_zero] at h
  rcases Nat.mod_two_eq_zero_or_one u with hu | hu <;>
  rcases Nat.mod_two_eq_zero_or_one v with hv | hv <;>
  rcases Nat.mod_two_eq_zero_or_one (u ^^^ v) with hx | hx <;>
  simp [hu, hv, hx] at h ⊢

/-- Exclusive-or of two exclusive-ors, regrouped. -/
theorem xor_rearrange (a b p q : Nat) : (a ^^^ p) ^^^ (b ^^^ q) = (a ^^^ b) ^^^ (p ^^^ q) := by
  apply Nat.eq_of_testBit_eq
  intro i
  simp only [Nat.testBit_xor]
  cases a.testBit i <;> cases b.testBit i <;> cases p.testBit i <;> cases q.testBit i <;> rfl

/-- The bit step is linear over exclusive-or. -/
theorem crc_bit_step_xor (u v : Nat) :
    crc_bit_step (u ^^^ v) = crc_bit_step u ^^^ crc_bit_step v := by
  rw [crc_bit_step_eq, crc_bit_step_eq, crc_bit_step_eq, shiftRight_xor, xor_mod_two,
    xor_rearrange]
  rcases Nat.mod_two_eq_zero_or_one u with hu | hu <;>
  rcases Nat.mod_two_eq_zero_or_one v with hv | hv <;>
  rw [hu, hv] <;> rfl

/-- Any number of bit steps is linear over exclusive-or. -/
theorem crc_bit_steps_xor (n u v : Nat) :
    crc_bit_step^[n] (u ^^^ v) = crc_bit_step^[n] u ^^^ crc_bit_step^[n] v := by
  induction n generalizing u v with
  | zero => rfl
  | succ n ih => rw [Function.iterate_succ_apply, Function.iterate_succ_apply,
      Function.iterate_succ_apply, crc_bit_step_xor, ih]

/-- On an even register the bit step is a plain halving. -/
theorem crc_bit_step_double (k : Nat) : crc_bit_step (2 * k) = k := by
  rw [crc_bit_step_eq]
  have : (2 * k) % 2 = 0 := by omega
  simp [this, Nat.shiftRight_eq_div_pow]

/-- On a register whose low `n` bits are clear, `n` bit steps shift them out. -/
theorem crc_bit_steps_shifted (n h : Nat) : crc_bit_step^[n] (2 ^ n * h) = h := by
  induction n with
  | zero => simp
  | succ n ih =>
    rw [Function.iterate_succ_apply, pow_succ, mul_comm (2 ^ n) 2, mul_assoc,
      crc_bit_step_double, ih]

/-- A register is the exclusive-or of its high part and its low byte. -/
theorem split_low_byte (x : Nat) : x = (2 ^ 8 * (x >>> 8)) ^^^ (x &&& 0xFF) := by
  apply Nat.eq_of_testBit_eq
  intro i
  have h255 : (255 : Nat) = 2 ^ 8 - 1 := rfl
  rw [mul_comm, ← Nat.shiftLeft_eq, h255]
  simp only [Nat.testBit_xor, Nat.testBit_shiftLeft, Nat.testBit_shiftRight, Nat.testBit_and,
    Nat.testBit_two_pow_sub_one]
  by_cases hi : i < 8
  · simp [hi, Nat.not_le.mpr hi]
  · have : 8 ≤ i := by omega
    simp [hi, this]

/-- Every entry of the lookup table is eight bit steps applied to its index. -/
theorem crc16_table_entries :
    ∀ i < 256, crc_bit_step^[8] i = crc16_table.getD i 0 := by
  set_option maxRecDepth 100000 in decide

/-- One byte step of the polynomial CRC is one lookup of the table-driven CRC. -/
theorem crc_byte_step_table (c b : Nat) (hb : b < 256) :
    crc_byte_step c b = (c >>> 8) ^^^ crc16_table.getD ((c ^^^ b) &&& 0xFF) 0 := by
  have hlow : (c ^^^ b) &&& 0xFF < 256 := by
    have h255 : (255 : Nat) = 2 ^ 8 - 1 := rfl
    rw [h255, Nat.and_pow_two_sub_one_eq_mod]
    exact Nat.mod_lt _ (by decide)
  have hhigh : (c ^^^ b) >>> 8 = c >>> 8 := by
    rw [shiftRight_xor]
    have hb8 : b >>> 8 = 0 := by
      rw [Nat.shiftRight_eq_div_pow]
      exact Nat.div_eq_of_lt hb
    rw [hb8, Nat.xor_zero]
  unfold crc_byte_step
  conv_lhs => rw [split_low_byte (c ^^^ b)]
  rw [crc_bit_steps_xor, crc_bit_steps_shifted, crc16_table_entries _ hlow, hhigh]

/-- The two CRC loops agree from any starting register on any byte sequence. -/
theorem foldl_crc_eq (data : List Nat) (h : ∀ b ∈ data, b < 256) (crc : Nat) :
    data.foldl crc_byte_step crc =
      data.foldl
        (fun crc byte => (crc >>> 8) ^^^ crc16_table.getD ((crc ^^^ byte) &&& 0xFF) 0) crc := by
  induction data generalizing crc with
  | nil => rfl
  | cons b rest ih =>
    simp only [List.foldl_cons]
    rw [crc_byte_step_table crc b (h b (List.mem_cons_self b rest))]
    exact ih (fun x hx => h x (List.mem_cons_of_mem b hx)) _

/-- The polynomial CRC `calculate_crc` equals the table-driven standard CRC16 on
every byte sequence. -/
theorem calculate_crc_eq_standard (data : List Nat) (h : ∀ b ∈ data, b < 256) :
    calculate_crc data = crc16_standard data :=
  foldl_crc_eq data h 0xFFFF

/-! ### The example query -/

/-- Encoding of the example query under a packet bound of at least 8. -/
theorem encode_query_example (max_packet_size : Nat) (h : 8 ≤ max_packet_size) :
    encode_query max_packet_size 0x11 0x06 [0x00, 0x01, 0x00, 0xFF] =
      .ok [0x11, 0x06, 0x00, 0x01, 0x00, 0xFF, 0x9A, 0xDA] := by
  simp only [encode_query]
  rw [calculate_crc_example]
  have hlen : ¬ ([0x11, 0x06, 0x00, 0x01, 0x00, 0xFF] ++ [0xDA9A &&& 0xFF, 0xDA9A >>> 8]).length
      > max_packet_size := by
    simp only [List.length_append, List.length_cons, List.length_nil]
    omega
  exact if_neg hlen

/-- A query whose encoding succeeds is passed to the transport, whose result
is returned. -/
theorem send_query_ok {δ : Type} (m : Modbus δ) (slave_address : Nat) (fc : function_code)
    (data frame : List Nat)
    (h : encode_query m.max_packet_size (slave_address % 2 ^ 8) fc.value data = .ok frame) :
    m.send_query slave_address fc data =
      .ok ((m.m_phy_class.send m.m_phy frame).1,
        { m with m_phy := (m.m_phy_class.send m.m_phy frame).2 }) := by
  unfold Modbus.send_query
  rw [h]

/-- A query whose encoding fails is not sent: the failure is the result. -/
theorem send_query_error {δ : Type} (m : Modbus δ) (slave_address : Nat) (fc : function_code)
    (data : List Nat) (e : FrameError)
    (h : encode_query m.max_packet_size (slave_address % 2 ^ 8) fc.value data = .error e) :
    m.send_query slave_address fc data = .error e := by
  unfold Modbus.send_query
  rw [h]

/-- C5, with the packet bound made explicit: on a Modbus object whose max packet size is at least 8,
send_preset_single_register_query(17, 0x0001, 0x00FF) passes the transport
exactly the frame [0x11, 0x06, 0x00, 0x01, 0x00, 0xFF, 0x9A, 0xDA] and
returns the transport result; 0x9A and 0xDA are the low and the high byte of
calculate_crc over the first six bytes, and that CRC equals the standard
table-driven Modbus CRC16 of the same bytes. -/
theorem preset_single_register_query_frame {δ : Type} (m : Modbus δ)
    (h : 8 ≤ m.max_packet_size) :
    m.send_preset_single_register_query 17 0x0001 0x00FF =
      .ok ((m.m_phy_class.send m.m_phy [0x11, 0x06, 0x00, 0x01, 0x00, 0xFF, 0x9A, 0xDA]).1,
        { m with
          m_phy :=
            (m.m_phy_class.send m.m_phy [0x11, 0x06, 0x00, 0x01, 0x00, 0xFF, 0x9A, 0xDA]).2 }) ∧
    calculate_crc [0x11, 0x06, 0x00, 0x01, 0x00, 0xFF] &&& 0xFF = 0x9A ∧
    calculate_crc [0x11, 0x06, 0x00, 0x01, 0x00, 0xFF] >>> 8 = 0xDA ∧
    calculate_crc [0x11, 0x06, 0x00, 0x01, 0x00, 0xFF] =
      crc16_standard [0x11, 0x06, 0x00, 0x01, 0x00, 0xFF] := by
  refine ⟨?_, ?_, ?_, ?_⟩
  · exact send_query_ok m 17 .PRESET_SINGLE_REGISTER _ _ (encode_query_example m.max_packet_size h)
  · rw [calculate_crc_example]
    rfl
  · rw [calculate_crc_example]
    rfl
  · rw [calculate_crc_example, crc16_standard_example]

/-- Witness for C5: the Modbus object of `plain_master` has a
packet bound of 256; its transport receives the frame and reports its 8
bytes. -/
theorem preset_single_register_query_frame_witness :
    8 ≤ plain_master.modbus.max_packet_size ∧
    plain_master.modbus.send_preset_single_register_query 17 0x0001 0x00FF =
      .ok (8,
        { plain_master.modbus with
          m_phy :=
            { idle_phy with m_buffer := [0x11, 0x06, 0x00, 0x01, 0x00, 0xFF, 0x9A, 0xDA] } }) :=
  ⟨by decide, (preset_single_register_query_frame plain_master.modbus (by decide)).1⟩

/-- C5 does not hold for every packet bound: after set_max_packet_size(7) the
same call fails with PayloadTooLarge, so no frame reaches the transport. -/
theorem preset_single_register_query_small_bound :
    small_packet_modbus.send_preset_single_register_query 17 0x0001 0x00FF =
      .error .PayloadTooLarge ∧
    ¬ small_packet_modbus.send_preset_single_register_query 17 0x0001 0x00FF =
      .ok ((small_packet_modbus.m_phy_class.send small_packet_modbus.m_phy
          [0x11, 0x06, 0x00, 0x01, 0x00, 0xFF, 0x9A, 0xDA]).1,
        { small_packet_modbus with
          m_phy :=
            (small_packet_modbus.m_phy_class.send small_packet_modbus.m_phy
              [0x11, 0x06, 0x00, 0x01, 0x00, 0xFF, 0x9A, 0xDA]).2 }) := by
  have hq : encode_query 7 0x11 0x06 [0x00, 0x01, 0x00, 0xFF] = .error .PayloadTooLarge := by
    simp only [encode_query]
    rw [calculate_crc_example]
    rfl
  have he : small_packet_modbus.send_preset_single_register_query 17 0x0001 0x00FF =
      .error .PayloadTooLarge :=
    send_query_error small_packet_modbus 17 .PRESET_SINGLE_REGISTER _ _ hq
  refine ⟨he, ?_⟩
  rw [he]
  intro hne
  cases hne

end mbus
